import Mathlib

/-!
Shallow embedding of the PerfSight resource collector
(`perf-sight/src-tauri/python/collector.py`).

Numeric values (wall-clock seconds, cumulative CPU seconds, memory byte
counts) are modelled by exact rationals: Python float arithmetic is
idealized as exact arithmetic, and the two-decimal presentation rounding
`round(x, 2)` applied when a sample is serialized to JSON is treated as
output formatting and is not modelled.

The sampler's infinite `while True` loop is embedded one iteration at a
time: `collect_metrics_tick` maps the configuration snapshot, the tick's
OS observation and the loop-private caches to the updated caches and the
optionally emitted metric event.  The control loop `read_stdin` is
embedded one command at a time by `read_stdin_step`.
-/

namespace PerfSight

/-- A partial map keyed by OS process identifiers, modelling a Python dict. -/
abbrev PMap (α : Type) : Type := Nat → Option α

def PMap.empty {α : Type} : PMap α := fun _ => none

def PMap.insert {α : Type} (m : PMap α) (k : Nat) (v : α) : PMap α :=
  fun q => if q = k then some v else m q

def PMap.erase {α : Type} (m : PMap α) (k : Nat) : PMap α :=
  fun q => if q = k then none else m q

/-- The cleanup loops `for pid in list(d.keys()): if pid not in target_pid_set: del d[pid]`:
keep exactly the entries whose key is in the target list. -/
def PMap.prune {α : Type} (m : PMap α) (pids : List Nat) : PMap α :=
  fun q => if q ∈ pids then m q else none

/-- Result of `proc.cpu_times()`: cumulative user and system CPU seconds. -/
structure CpuTimes where
  user : ℚ
  system : ℚ
  deriving DecidableEq

/-- Result of `proc.memory_info()`: `rss` always exists, the `private`
field only on Windows (`getattr(mem_info, 'private', mem_info.rss)`). -/
structure MemInfo where
  rss : ℚ
  priv : Option ℚ
  deriving DecidableEq

/-- Failure class of a psutil call: `gone` stands for the exceptions
`NoSuchProcess`, `AccessDenied` and `ZombieProcess`, which the per-pid
outer handler catches together; `generic` is any other exception. -/
inductive OsErr where
  | gone
  | generic
  deriving DecidableEq

/-- What the OS would answer for one pid during one tick:
`construct` is the result of `psutil.Process(pid)` (an opaque handle
token on success), consulted only when the pid is not cached;
`cpuTimes` is the result of `proc.cpu_times()` (the inner `try` catches
every exception class, so its failure carries no class);
`memInfo` is the result of `proc.memory_info()`. -/
structure ProcObs where
  construct : Except OsErr Nat
  cpuTimes : Except Unit CpuTimes
  memInfo : Except OsErr MemInfo

/-- One non-null metric sample: cpu percent and memory in MB. -/
structure Sample where
  cpu : ℚ
  memory : ℚ
  deriving DecidableEq

/-- Sampler-loop private state: the `process_cache` of psutil handles and
the `cpu_state` baseline store `pid -> (last_time, last_total_cpu_time)`. -/
structure SamplerState where
  process_cache : PMap Nat
  cpu_state : PMap (ℚ × ℚ)

/-- The Shared Configuration guarded by `config_lock`. -/
structure Config where
  running : Bool
  pids : List Nat
  interval : ℚ
  deriving DecidableEq

/-- `if pid not in process_cache: process_cache[pid] = psutil.Process(pid)`:
returns the cache to use for this pid, or the construction failure. -/
def acquireHandle (o : ProcObs) (st : SamplerState) (pid : Nat) :
    Except OsErr (PMap Nat) :=
  match st.process_cache pid with
  | some _ => Except.ok st.process_cache
  | none =>
      match o.construct with
      | Except.ok h => Except.ok (st.process_cache.insert pid h)
      | Except.error e => Except.error e

/-- The inner `try` of the manual CPU delta in `collect_metrics`: returns
the computed `cpu` value and the updated `cpu_state`.  On success the
baseline is always overwritten with `(now, total_cpu_time)`; on any
exception `cpu = 0.0` and the pid's baseline entry is deleted. -/
def cpuStep (cores now : ℚ) (o : ProcObs) (cpu_state : PMap (ℚ × ℚ)) (pid : Nat) :
    ℚ × PMap (ℚ × ℚ) :=
  match o.cpuTimes with
  | Except.ok t =>
      let total_cpu_time := t.user + t.system
      let cpu : ℚ :=
        match cpu_state pid with
        | some (last_time, last_total) =>
            let delta_time := now - last_time
            let delta_cpu := total_cpu_time - last_total
            if 0 < delta_time ∧ 0 ≤ delta_cpu then
              delta_cpu / delta_time * 100 / cores
            else 0
        | none => 0
      (cpu, cpu_state.insert pid (now, total_cpu_time))
  | Except.error _ => (0, cpu_state.erase pid)

/-- The body of `for pid in target_pids` in `collect_metrics`: sample one
pid, returning the updated caches and the value written to
`metrics[pid]` (`none` models the JSON `null`). -/
def samplePid (cores now : ℚ) (o : ProcObs) (st : SamplerState) (pid : Nat) :
    SamplerState × Option Sample :=
  match acquireHandle o st pid with
  | Except.error OsErr.gone =>
      (⟨st.process_cache.erase pid, st.cpu_state.erase pid⟩, none)
  | Except.error OsErr.generic => (st, none)
  | Except.ok cache1 =>
      let c := cpuStep cores now o st.cpu_state pid
      match o.memInfo with
      | Except.ok m =>
          (⟨cache1, c.2⟩, some ⟨c.1, m.priv.getD m.rss / 1024 / 1024⟩)
      | Except.error OsErr.gone =>
          (⟨cache1.erase pid, c.2.erase pid⟩, none)
      | Except.error OsErr.generic => (⟨cache1, c.2⟩, none)

/-- The metrics accumulation over `target_pids`: returns the final caches,
the `metrics` dict and the `has_data` flag. -/
def runPids (cores now : ℚ) (obs : Nat → ProcObs) :
    List Nat → SamplerState → PMap (Option Sample) → Bool →
      SamplerState × PMap (Option Sample) × Bool
  | [], st, metrics, has_data => (st, metrics, has_data)
  | pid :: rest, st, metrics, has_data =>
      let r := samplePid cores now (obs pid) st pid
      runPids cores now obs rest r.1 (metrics.insert pid r.2) (has_data || r.2.isSome)

/-- One tick's OS observation: the wall clock `now`, the epoch-ms stamp,
and what each pid access would return this tick. -/
structure TickObs where
  now : ℚ
  timestamp : ℤ
  procs : Nat → ProcObs

/-- The `{"type": "data", ...}` event written to stdout. -/
structure MetricEvent where
  timestamp : ℤ
  metrics : PMap (Option Sample)

/-- Start-of-tick cache cleanup: drop every cached entry whose key is not
in the current target set. -/
def pruneState (pids : List Nat) (st : SamplerState) : SamplerState :=
  ⟨st.process_cache.prune pids, st.cpu_state.prune pids⟩

/-- The sampling phase of one enabled tick: prune, then sample each target. -/
def tickRun (cores : ℚ) (cfg : Config) (tob : TickObs) (st : SamplerState) :
    SamplerState × PMap (Option Sample) × Bool :=
  runPids cores tob.now tob.procs cfg.pids (pruneState cfg.pids st) PMap.empty false

/-- One iteration of the `while True` loop of `collect_metrics`: from the
configuration snapshot, the tick's observation and the caches to the
updated caches and the optionally emitted metric event.  When not
running, the caches are cleared only if the target list is also empty,
and nothing is emitted. -/
def collect_metrics_tick (cores : ℚ) (cfg : Config) (tob : TickObs) (st : SamplerState) :
    SamplerState × Option MetricEvent :=
  if cfg.running then
    let r := tickRun cores cfg tob st
    (r.1, if r.2.2 then some ⟨tob.timestamp, r.2.1⟩ else none)
  else
    (if cfg.pids.isEmpty then ⟨PMap.empty, PMap.empty⟩ else st, none)

/-- Python `s.lower()` (ASCII idealization). -/
def pyLower (s : String) : String := String.mk (s.data.map Char.toLower)

/-- Python `s.capitalize()`: first character upper-cased, the rest lower-cased. -/
def pyCapitalize (s : String) : String :=
  match s.data with
  | [] => String.mk []
  | c :: cs => String.mk (Char.toUpper c :: cs.map Char.toLower)

/-- Python `needle in hay` substring test on strings. -/
def strContains (hay needle : String) : Bool := decide (needle.data <:+: hay.data)

/-- Python `arg.split('=')`: split on every occurrence of the separator. -/
def pySplitEq (s : String) : List String := (s.data.splitOn ('=' : Char)).map String.mk

/-- Python `s.startswith(p)`. -/
def pyStartsWith (s p : String) : Bool := p.data.isPrefixOf s.data

/-- The executable-name family recognized by the scanner. -/
def target_names : List String := ["chrome.exe", "google chrome", "chrome"]

def tyRenderer : String := "--type=renderer"

def tyExtension : String := "--extension-process"

def tyGpu : String := "--type=gpu-process"

def tyUtility : String := "--type=utility"

def tyCrashpad : String := "--type=crashpad-handler"

def tyFlag : String := "--type="

/-- `cmd_str = ' '.join(cmdline)`. -/
def cmd_str_of (cmdline : List String) : String :=
  String.intercalate (" ") cmdline

/-- The role-classification chain of `scan_chrome_processes`, extracted as
a pure function of the command line. -/
def classify_proc_type (cmdline : List String) : String :=
  let cmd_str := cmd_str_of cmdline
  if strContains cmd_str tyRenderer then
    if strContains cmd_str tyExtension then "Extension" else "Renderer"
  else if strContains cmd_str tyGpu then "GPU"
  else if strContains cmd_str tyUtility then "Utility"
  else if strContains cmd_str tyCrashpad then "Crashpad"
  else if strContains cmd_str tyFlag then
    match cmdline.find? (fun arg => pyStartsWith arg tyFlag) with
    | some arg => pyCapitalize ((pySplitEq arg).getD 1 (String.mk []))
    | none => "Browser"
  else "Browser"

/-- A live OS process as seen by `psutil.process_iter`: the prefetched
`info` fields, plus whether accessing it succeeds (`accessible = false`
models `NoSuchProcess` / `AccessDenied` raised inside the loop, which is
swallowed by `pass`).  `cmdline` is an `Option` because
`proc.info.get('cmdline') or []` tolerates a missing value. -/
structure OsProc where
  pid : Nat
  name : String
  cmdline : Option (List String)
  memory_info : MemInfo
  accessible : Bool

/-- A record of the `process_list` response. -/
structure ChromeProc where
  pid : Nat
  name : String
  proc_type : String
  memory : ℚ
  cpu : ℚ
  deriving DecidableEq

/-- `scan_chrome_processes`: filter the process population to the
executable-name family (case-insensitive substring match) and classify
each match; `cpu` is always reported as `0.0`. -/
def scan_chrome_processes (procs : List OsProc) : List ChromeProc :=
  procs.filterMap fun p =>
    if p.accessible then
      let lname := pyLower p.name
      if target_names.any (fun t => strContains lname t) then
        some { pid := p.pid, name := p.name,
               proc_type := classify_proc_type (p.cmdline.getD []),
               memory := p.memory_info.priv.getD p.memory_info.rss,
               cpu := 0 }
      else none
    else none

/-- A parsed control command (`action` field of one stdin line).
`unknown` covers unrecognized actions, which are ignored. -/
inductive Command where
  | scan_chrome
  | start (pids : Option (List Nat)) (interval : Option ℚ)
  | stop
  | update (pids : Option (List Nat)) (interval : Option ℚ)
  | exit
  | unknown

/-- One iteration of the command loop `read_stdin`, given the current OS
process population: returns the updated configuration, the optional
`process_list` response payload, and whether the process exits.
`start` defaults missing `pids` to `[]` and a missing `interval` to `1.0`;
every interval write is clamped below by `max(0.5, interval)`. -/
def read_stdin_step (osProcs : List OsProc) (c : Command) (cfg : Config) :
    Config × Option (List ChromeProc) × Bool :=
  match c with
  | Command.scan_chrome => (cfg, some (scan_chrome_processes osProcs), false)
  | Command.start ps iv =>
      ({ running := true, pids := ps.getD [],
         interval := max (1 / 2 : ℚ) (iv.getD 1) }, none, false)
  | Command.stop => ({ cfg with running := false }, none, false)
  | Command.update ps iv =>
      let c1 : Config :=
        match ps with
        | some p => { cfg with pids := p }
        | none => cfg
      let c2 : Config :=
        match iv with
        | some i => { c1 with interval := max (1 / 2 : ℚ) i }
        | none => c1
      (c2, none, false)
  | Command.exit => (cfg, none, true)
  | Command.unknown => (cfg, none, false)

theorem PMap.insert_self {α : Type} (m : PMap α) (k : Nat) (v : α) :
    m.insert k v k = some v := by
  simp [PMap.insert]

theorem PMap.insert_ne {α : Type} (m : PMap α) (k : Nat) (v : α) (q : Nat)
    (h : q ≠ k) : m.insert k v q = m q := by
  simp [PMap.insert, h]

theorem PMap.erase_self {α : Type} (m : PMap α) (k : Nat) : m.erase k k = none := by
  simp [PMap.erase]

theorem acquireHandle_of_handle {o : ProcObs} {st : SamplerState} {pid : Nat}
    (hhandle : st.process_cache pid ≠ none ∨ ∃ h, o.construct = Except.ok h) :
    ∃ c, acquireHandle o st pid = Except.ok c := by
  unfold acquireHandle
  cases hc : st.process_cache pid with
  | some h => exact ⟨_, rfl⟩
  | none =>
      rcases hhandle with h1 | ⟨h, hcon⟩
      · exact absurd hc h1
      · rw [hcon]
        exact ⟨_, rfl⟩

/-- C1: for a target whose CPU and memory reads both succeed in a tick,
the reported cpu value is `100 * Δc / Δt / cores` when a prior baseline
exists with `Δt > 0` and `Δc ≥ 0` (hence nonnegative for a positive core
count), is exactly `0` when `Δt ≤ 0` or `Δc < 0`, is exactly `0` on the
target's first-ever sampled tick, and in every case the stored baseline
is updated to `(now, cumulativeCpuTime)`. -/
theorem samplePid_cpu_formula (cores now : ℚ) (o : ProcObs) (st : SamplerState)
    (pid : Nat) (t : CpuTimes) (m : MemInfo)
    (hcpu : o.cpuTimes = Except.ok t) (hmem : o.memInfo = Except.ok m)
    (hhandle : st.process_cache pid ≠ none ∨ ∃ h, o.construct = Except.ok h) :
    ∃ s : Sample, (samplePid cores now o st pid).2 = some s ∧
      (∀ lt lc : ℚ, st.cpu_state pid = some (lt, lc) →
        (0 < now - lt ∧ 0 ≤ t.user + t.system - lc →
            s.cpu = 100 * (t.user + t.system - lc) / (now - lt) / cores) ∧
        (¬(0 < now - lt ∧ 0 ≤ t.user + t.system - lc) → s.cpu = 0)) ∧
      (st.cpu_state pid = none → s.cpu = 0) ∧
      (0 < cores → 0 ≤ s.cpu) ∧
      (samplePid cores now o st pid).1.cpu_state pid =
        some (now, t.user + t.system) := by
  obtain ⟨c, hac⟩ := acquireHandle_of_handle hhandle
  refine ⟨⟨(cpuStep cores now o st.cpu_state pid).1, m.priv.getD m.rss / 1024 / 1024⟩,
    ?_, ?_, ?_, ?_, ?_⟩
  · simp [samplePid, hac, hmem]
  · intro lt lc hst
    constructor
    · intro hcond
      simp only [cpuStep, hcpu, hst]
      rw [if_pos hcond]
      ring
    · intro hcond
      simp only [cpuStep, hcpu, hst]
      rw [if_neg hcond]
  · intro hst
    simp [cpuStep, hcpu, hst]
  · intro hcores
    cases hst : st.cpu_state pid with
    | none => simp [cpuStep, hcpu, hst]
    | some p =>
        obtain ⟨lt, lc⟩ := p
        simp only [cpuStep, hcpu, hst]
        by_cases hcond : 0 < now - lt ∧ 0 ≤ t.user + t.system - lc
        · rw [if_pos hcond]
          exact div_nonneg (mul_nonneg (div_nonneg hcond.2 hcond.1.le) (by norm_num))
            hcores.le
        · rw [if_neg hcond]
  · simp [samplePid, hac, hmem, cpuStep, hcpu, PMap.insert_self]

theorem samplePid_cpu_formula_witness :
    ∃ s : Sample,
      (samplePid 4 10 ⟨Except.ok 7, Except.ok ⟨2, 1⟩, Except.ok ⟨1024, none⟩⟩
          ⟨PMap.empty, (PMap.empty : PMap (ℚ × ℚ)).insert 5 (8, 1)⟩ 5).2 = some s ∧
      (∀ lt lc : ℚ,
          ((PMap.empty : PMap (ℚ × ℚ)).insert 5 (8, 1)) 5 = some (lt, lc) →
        (0 < (10 : ℚ) - lt ∧ 0 ≤ (2 : ℚ) + 1 - lc →
            s.cpu = 100 * ((2 : ℚ) + 1 - lc) / ((10 : ℚ) - lt) / 4) ∧
        (¬(0 < (10 : ℚ) - lt ∧ 0 ≤ (2 : ℚ) + 1 - lc) → s.cpu = 0)) ∧
      (((PMap.empty : PMap (ℚ × ℚ)).insert 5 (8, 1)) 5 = none → s.cpu = 0) ∧
      (0 < (4 : ℚ) → 0 ≤ s.cpu) ∧
      (samplePid 4 10 ⟨Except.ok 7, Except.ok ⟨2, 1⟩, Except.ok ⟨1024, none⟩⟩
          ⟨PMap.empty, (PMap.empty : PMap (ℚ × ℚ)).insert 5 (8, 1)⟩ 5).1.cpu_state 5 =
        some (10, (2 : ℚ) + 1) :=
  samplePid_cpu_formula 4 10 ⟨Except.ok 7, Except.ok ⟨2, 1⟩, Except.ok ⟨1024, none⟩⟩
    ⟨PMap.empty, (PMap.empty : PMap (ℚ × ℚ)).insert 5 (8, 1)⟩ 5 ⟨2, 1⟩ ⟨1024, none⟩
    rfl rfl (Or.inr ⟨7, rfl⟩)

/-- C2: when the OS reports the process gone, access denied or zombie —
either while reading its metrics through an acquired handle, or while
constructing a handle for an uncached pid — the tick's metrics map binds
the target to `null`, and both its CPU baseline entry and its cached
process handle are absent afterwards, so a reappearance of the same pid
starts fresh as a first sample. -/
theorem samplePid_gone_purges (cores now : ℚ) (o : ProcObs) (st : SamplerState)
    (pid : Nat) :
    (o.memInfo = Except.error OsErr.gone →
      (st.process_cache pid ≠ none ∨ ∃ h, o.construct = Except.ok h) →
      (samplePid cores now o st pid).2 = none ∧
      (samplePid cores now o st pid).1.process_cache pid = none ∧
      (samplePid cores now o st pid).1.cpu_state pid = none) ∧
    (st.process_cache pid = none → o.construct = Except.error OsErr.gone →
      (samplePid cores now o st pid).2 = none ∧
      (samplePid cores now o st pid).1.process_cache pid = none ∧
      (samplePid cores now o st pid).1.cpu_state pid = none) := by
  constructor
  · intro hmem hhandle
    obtain ⟨c, hac⟩ := acquireHandle_of_handle hhandle
    simp [samplePid, hac, hmem, PMap.erase_self]
  · intro hc hcon
    simp [samplePid, acquireHandle, hc, hcon, PMap.erase_self]

theorem samplePid_gone_purges_witness :
    ((⟨Except.ok 7, Except.ok ⟨2, 1⟩, Except.error OsErr.gone⟩ : ProcObs).memInfo =
        Except.error OsErr.gone →
      ((⟨(PMap.empty : PMap Nat).insert 5 9,
          (PMap.empty : PMap (ℚ × ℚ)).insert 5 (8, 1)⟩ : SamplerState).process_cache 5 ≠
          none ∨
        ∃ h, (⟨Except.ok 7, Except.ok ⟨2, 1⟩, Except.error OsErr.gone⟩ : ProcObs).construct =
          Except.ok h) →
      (samplePid 4 10 ⟨Except.ok 7, Except.ok ⟨2, 1⟩, Except.error OsErr.gone⟩
          ⟨(PMap.empty : PMap Nat).insert 5 9,
            (PMap.empty : PMap (ℚ × ℚ)).insert 5 (8, 1)⟩ 5).2 = none ∧
      (samplePid 4 10 ⟨Except.ok 7, Except.ok ⟨2, 1⟩, Except.error OsErr.gone⟩
          ⟨(PMap.empty : PMap Nat).insert 5 9,
            (PMap.empty : PMap (ℚ × ℚ)).insert 5 (8, 1)⟩ 5).1.process_cache 5 = none ∧
      (samplePid 4 10 ⟨Except.ok 7, Except.ok ⟨2, 1⟩, Except.error OsErr.gone⟩
          ⟨(PMap.empty : PMap Nat).insert 5 9,
            (PMap.empty : PMap (ℚ × ℚ)).insert 5 (8, 1)⟩ 5).1.cpu_state 5 = none) ∧
    ((⟨(PMap.empty : PMap Nat).insert 5 9,
        (PMap.empty : PMap (ℚ × ℚ)).insert 5 (8, 1)⟩ : SamplerState).process_cache 5 =
        none →
      (⟨Except.ok 7, Except.ok ⟨2, 1⟩, Except.error OsErr.gone⟩ : ProcObs).construct =
        Except.error OsErr.gone →
      (samplePid 4 10 ⟨Except.ok 7, Except.ok ⟨2, 1⟩, Except.error OsErr.gone⟩
          ⟨(PMap.empty : PMap Nat).insert 5 9,
            (PMap.empty : PMap (ℚ × ℚ)).insert 5 (8, 1)⟩ 5).2 = none ∧
      (samplePid 4 10 ⟨Except.ok 7, Except.ok ⟨2, 1⟩, Except.error OsErr.gone⟩
          ⟨(PMap.empty : PMap Nat).insert 5 9,
            (PMap.empty : PMap (ℚ × ℚ)).insert 5 (8, 1)⟩ 5).1.process_cache 5 = none ∧
      (samplePid 4 10 ⟨Except.ok 7, Except.ok ⟨2, 1⟩, Except.error OsErr.gone⟩
          ⟨(PMap.empty : PMap Nat).insert 5 9,
            (PMap.empty : PMap (ℚ × ℚ)).insert 5 (8, 1)⟩ 5).1.cpu_state 5 = none) :=
  samplePid_gone_purges 4 10 ⟨Except.ok 7, Except.ok ⟨2, 1⟩, Except.error OsErr.gone⟩
    ⟨(PMap.empty : PMap Nat).insert 5 9, (PMap.empty : PMap (ℚ × ℚ)).insert 5 (8, 1)⟩ 5

/-- C9: if reading the target's cumulative CPU times fails with a generic
exception but its memory read succeeds in the same tick, the emitted
entry is a non-null sample with cpu exactly `0.0`, the target's CPU
baseline entry is deleted (so the next successful tick is treated as a
first sample), and the cached process handle is kept. -/
theorem cpu_read_failure_sample_zero (cores now : ℚ) (o : ProcObs)
    (st : SamplerState) (pid : Nat) (m : MemInfo) (h : Nat)
    (hcpu : o.cpuTimes = Except.error ()) (hmem : o.memInfo = Except.ok m)
    (hcache : st.process_cache pid = some h) :
    (samplePid cores now o st pid).2 = some ⟨0, m.priv.getD m.rss / 1024 / 1024⟩ ∧
    (samplePid cores now o st pid).1.cpu_state pid = none ∧
    (samplePid cores now o st pid).1.process_cache pid = some h := by
  have hac : acquireHandle o st pid = Except.ok st.process_cache := by
    simp [acquireHandle, hcache]
  refine ⟨?_, ?_, ?_⟩
  · simp [samplePid, hac, hmem, cpuStep, hcpu]
  · simp [samplePid, hac, hmem, cpuStep, hcpu, PMap.erase_self]
  · simp [samplePid, hac, hmem, hcache]

theorem cpu_read_failure_sample_zero_witness :
    (samplePid 4 10 ⟨Except.ok 7, Except.error (), Except.ok ⟨2048, some 1024⟩⟩
        ⟨(PMap.empty : PMap Nat).insert 5 9,
          (PMap.empty : PMap (ℚ × ℚ)).insert 5 (8, 1)⟩ 5).2 =
      some ⟨0, (some (1024 : ℚ)).getD 2048 / 1024 / 1024⟩ ∧
    (samplePid 4 10 ⟨Except.ok 7, Except.error (), Except.ok ⟨2048, some 1024⟩⟩
        ⟨(PMap.empty : PMap Nat).insert 5 9,
          (PMap.empty : PMap (ℚ × ℚ)).insert 5 (8, 1)⟩ 5).1.cpu_state 5 = none ∧
    (samplePid 4 10 ⟨Except.ok 7, Except.error (), Except.ok ⟨2048, some 1024⟩⟩
        ⟨(PMap.empty : PMap Nat).insert 5 9,
          (PMap.empty : PMap (ℚ × ℚ)).insert 5 (8, 1)⟩ 5).1.process_cache 5 = some 9 :=
  cpu_read_failure_sample_zero 4 10
    ⟨Except.ok 7, Except.error (), Except.ok ⟨2048, some 1024⟩⟩
    ⟨(PMap.empty : PMap Nat).insert 5 9, (PMap.empty : PMap (ℚ × ℚ)).insert 5 (8, 1)⟩
    5 ⟨2048, some 1024⟩ 9 rfl rfl (by simp [PMap.insert_self])

/-- C5: the start-of-tick cleanup removes every Sampling State Store entry
and every cached process handle whose key is not in the current target
set, so after the prune step the domains of both caches are subsets of
the target set, while entries for current targets are preserved. -/
theorem prune_domain_subset (pids : List Nat) (st : SamplerState) (k : Nat) :
    (k ∉ pids → (pruneState pids st).process_cache k = none ∧
      (pruneState pids st).cpu_state k = none) ∧
    ((pruneState pids st).process_cache k ≠ none → k ∈ pids) ∧
    ((pruneState pids st).cpu_state k ≠ none → k ∈ pids) ∧
    (k ∈ pids → (pruneState pids st).process_cache k = st.process_cache k ∧
      (pruneState pids st).cpu_state k = st.cpu_state k) := by
  refine ⟨fun hk => ?_, fun hk => ?_, fun hk => ?_, fun hk => ?_⟩
  · simp [pruneState, PMap.prune, hk]
  · by_contra hmem
    simp [pruneState, PMap.prune, hmem] at hk
  · by_contra hmem
    simp [pruneState, PMap.prune, hmem] at hk
  · simp [pruneState, PMap.prune, hk]

theorem prune_domain_subset_witness :
    ((5 : Nat) ∉ [2, 3] →
      (pruneState [2, 3] ⟨(PMap.empty : PMap Nat).insert 5 9,
          (PMap.empty : PMap (ℚ × ℚ)).insert 2 (8, 1)⟩).process_cache 5 = none ∧
      (pruneState [2, 3] ⟨(PMap.empty : PMap Nat).insert 5 9,
          (PMap.empty : PMap (ℚ × ℚ)).insert 2 (8, 1)⟩).cpu_state 5 = none) ∧
    ((pruneState [2, 3] ⟨(PMap.empty : PMap Nat).insert 5 9,
        (PMap.empty : PMap (ℚ × ℚ)).insert 2 (8, 1)⟩).process_cache 5 ≠ none →
      (5 : Nat) ∈ [2, 3]) ∧
    ((pruneState [2, 3] ⟨(PMap.empty : PMap Nat).insert 5 9,
        (PMap.empty : PMap (ℚ × ℚ)).insert 2 (8, 1)⟩).cpu_state 5 ≠ none →
      (5 : Nat) ∈ [2, 3]) ∧
    ((5 : Nat) ∈ [2, 3] →
      (pruneState [2, 3] ⟨(PMap.empty : PMap Nat).insert 5 9,
          (PMap.empty : PMap (ℚ × ℚ)).insert 2 (8, 1)⟩).process_cache 5 =
        ((PMap.empty : PMap Nat).insert 5 9) 5 ∧
      (pruneState [2, 3] ⟨(PMap.empty : PMap Nat).insert 5 9,
          (PMap.empty : PMap (ℚ × ℚ)).insert 2 (8, 1)⟩).cpu_state 5 =
        ((PMap.empty : PMap (ℚ × ℚ)).insert 2 (8, 1)) 5) :=
  prune_domain_subset [2, 3]
    ⟨(PMap.empty : PMap Nat).insert 5 9, (PMap.empty : PMap (ℚ × ℚ)).insert 2 (8, 1)⟩ 5

/-- C6: a tick whose snapshot is disabled emits nothing; it clears both
the Sampling State Store and the process-handle cache when the target
set is empty, and leaves both caches (in particular every stored CPU
baseline) unchanged when the target set is non-empty. -/
theorem disabled_tick_state (cores : ℚ) (cfg : Config) (tob : TickObs)
    (st : SamplerState) (hrun : cfg.running = false) :
    (collect_metrics_tick cores cfg tob st).2 = none ∧
    (cfg.pids = [] →
      (collect_metrics_tick cores cfg tob st).1.process_cache = PMap.empty ∧
      (collect_metrics_tick cores cfg tob st).1.cpu_state = PMap.empty) ∧
    (cfg.pids ≠ [] → (collect_metrics_tick cores cfg tob st).1 = st) := by
  refine ⟨?_, fun hp => ?_, fun hp => ?_⟩
  · simp [collect_metrics_tick, hrun]
  · simp [collect_metrics_tick, hrun, hp]
  · simp [collect_metrics_tick, hrun, List.isEmpty_iff, hp]

theorem disabled_tick_state_witness :
    (collect_metrics_tick 4 ⟨false, [2], 1⟩ ⟨10, 1000, fun _ =>
        ⟨Except.ok 7, Except.ok ⟨2, 1⟩, Except.ok ⟨1024, none⟩⟩⟩
      ⟨(PMap.empty : PMap Nat).insert 2 9,
        (PMap.empty : PMap (ℚ × ℚ)).insert 2 (8, 1)⟩).2 = none ∧
    (([2] : List Nat) = [] →
      (collect_metrics_tick 4 ⟨false, [2], 1⟩ ⟨10, 1000, fun _ =>
          ⟨Except.ok 7, Except.ok ⟨2, 1⟩, Except.ok ⟨1024, none⟩⟩⟩
        ⟨(PMap.empty : PMap Nat).insert 2 9,
          (PMap.empty : PMap (ℚ × ℚ)).insert 2 (8, 1)⟩).1.process_cache = PMap.empty ∧
      (collect_metrics_tick 4 ⟨false, [2], 1⟩ ⟨10, 1000, fun _ =>
          ⟨Except.ok 7, Except.ok ⟨2, 1⟩, Except.ok ⟨1024, none⟩⟩⟩
        ⟨(PMap.empty : PMap Nat).insert 2 9,
          (PMap.empty : PMap (ℚ × ℚ)).insert 2 (8, 1)⟩).1.cpu_state = PMap.empty) ∧
    (([2] : List Nat) ≠ [] →
      (collect_metrics_tick 4 ⟨false, [2], 1⟩ ⟨10, 1000, fun _ =>
          ⟨Except.ok 7, Except.ok ⟨2, 1⟩, Except.ok ⟨1024, none⟩⟩⟩
        ⟨(PMap.empty : PMap Nat).insert 2 9,
          (PMap.empty : PMap (ℚ × ℚ)).insert 2 (8, 1)⟩).1 =
        ⟨(PMap.empty : PMap Nat).insert 2 9,
          (PMap.empty : PMap (ℚ × ℚ)).insert 2 (8, 1)⟩) :=
  disabled_tick_state 4 ⟨false, [2], 1⟩ ⟨10, 1000, fun _ =>
      ⟨Except.ok 7, Except.ok ⟨2, 1⟩, Except.ok ⟨1024, none⟩⟩⟩
    ⟨(PMap.empty : PMap Nat).insert 2 9, (PMap.empty : PMap (ℚ × ℚ)).insert 2 (8, 1)⟩
    rfl

/-- C3: every write of the sampling interval stores `max(0.5, requested)`:
a `start` command with an explicit interval stores exactly `0.5` whenever
the request is below half a second (and is not rejected: it still enables
sampling), a `start` without an interval defaults it to `1.0`, and an
`update` carrying an interval is clamped the same way; every stored value
is at least half a second. -/
theorem interval_clamped (osProcs : List OsProc) (cfg : Config)
    (ps qs : Option (List Nat)) (i : ℚ) :
    ((read_stdin_step osProcs (Command.start ps (some i)) cfg).1.interval =
      max (1 / 2) i) ∧
    (i < 1 / 2 →
      (read_stdin_step osProcs (Command.start ps (some i)) cfg).1.interval = 1 / 2) ∧
    ((read_stdin_step osProcs (Command.start ps none) cfg).1.interval = 1) ∧
    ((read_stdin_step osProcs (Command.start ps (some i)) cfg).1.running = true) ∧
    ((read_stdin_step osProcs (Command.start ps (some i)) cfg).2.2 = false) ∧
    ((read_stdin_step osProcs (Command.update qs (some i)) cfg).1.interval =
      max (1 / 2) i) ∧
    (i < 1 / 2 →
      (read_stdin_step osProcs (Command.update qs (some i)) cfg).1.interval = 1 / 2) ∧
    (1 / 2 ≤ (read_stdin_step osProcs (Command.start ps (some i)) cfg).1.interval) := by
  have hupd : (read_stdin_step osProcs (Command.update qs (some i)) cfg).1.interval =
      max (1 / 2) i := by
    cases qs <;> simp [read_stdin_step]
  refine ⟨by simp [read_stdin_step], fun hi => ?_, ?_, by simp [read_stdin_step],
    by simp [read_stdin_step], hupd, fun hi => ?_, ?_⟩
  · simp [read_stdin_step]
    linarith
  · norm_num [read_stdin_step]
  · rw [hupd]
    exact max_eq_left hi.le
  · simp [read_stdin_step]

theorem interval_clamped_witness :
    ((read_stdin_step [] (Command.start (some [2]) (some (1 / 10))) ⟨false, [], 1⟩).1.interval =
      max (1 / 2) (1 / 10)) ∧
    ((1 : ℚ) / 10 < 1 / 2 →
      (read_stdin_step [] (Command.start (some [2]) (some (1 / 10)))
        ⟨false, [], 1⟩).1.interval = 1 / 2) ∧
    ((read_stdin_step [] (Command.start (some [2]) none) ⟨false, [], 1⟩).1.interval = 1) ∧
    ((read_stdin_step [] (Command.start (some [2]) (some (1 / 10)))
      ⟨false, [], 1⟩).1.running = true) ∧
    ((read_stdin_step [] (Command.start (some [2]) (some (1 / 10))) ⟨false, [], 1⟩).2.2 =
      false) ∧
    ((read_stdin_step [] (Command.update none (some (1 / 10))) ⟨false, [], 1⟩).1.interval =
      max (1 / 2) (1 / 10)) ∧
    ((1 : ℚ) / 10 < 1 / 2 →
      (read_stdin_step [] (Command.update none (some (1 / 10)))
        ⟨false, [], 1⟩).1.interval = 1 / 2) ∧
    ((1 : ℚ) / 2 ≤
      (read_stdin_step [] (Command.start (some [2]) (some (1 / 10)))
        ⟨false, [], 1⟩).1.interval) :=
  interval_clamped [] ⟨false, [], 1⟩ (some [2]) none (1 / 10)

/-- C8: the response of a `scan_chrome` command depends only on the OS
process population, never on the Shared Configuration: any two
configuration states (any enabled flag, target set and interval) produce
the same process-list payload, which is the classified scan of the
population, and the command leaves the configuration untouched. -/
theorem scan_independent_of_config (osProcs : List OsProc) (cfg cfg2 : Config) :
    (read_stdin_step osProcs Command.scan_chrome cfg).2.1 =
      (read_stdin_step osProcs Command.scan_chrome cfg2).2.1 ∧
    (read_stdin_step osProcs Command.scan_chrome cfg).2.1 =
      some (scan_chrome_processes osProcs) ∧
    (read_stdin_step osProcs Command.scan_chrome cfg).1 = cfg :=
  ⟨rfl, rfl, rfl⟩

theorem runPids_not_mem (cores now : ℚ) (obs : Nat → ProcObs) :
    ∀ (l : List Nat) (st : SamplerState) (m : PMap (Option Sample)) (hd : Bool)
      (k : Nat), k ∉ l → (runPids cores now obs l st m hd).2.1 k = m k := by
  intro l
  induction l with
  | nil =>
      intro st m hd k _
      rfl
  | cons pid rest ih =>
      intro st m hd k hk
      have hk1 : k ≠ pid := fun h => hk (h ▸ List.mem_cons_self pid rest)
      have hk2 : k ∉ rest := fun h => hk (List.mem_cons_of_mem pid h)
      have hstep : runPids cores now obs (pid :: rest) st m hd =
          runPids cores now obs rest (samplePid cores now (obs pid) st pid).1
            (m.insert pid (samplePid cores now (obs pid) st pid).2)
            (hd || (samplePid cores now (obs pid) st pid).2.isSome) := rfl
      rw [hstep, ih _ _ _ _ hk2, PMap.insert_ne _ _ _ _ hk1]

theorem runPids_has_data (cores now : ℚ) (obs : Nat → ProcObs) :
    ∀ (l : List Nat) (st : SamplerState) (m : PMap (Option Sample)) (hd : Bool),
      l.Nodup →
      ((runPids cores now obs l st m hd).2.2 = true ↔
        hd = true ∨ ∃ p ∈ l, ∃ v : Sample,
          (runPids cores now obs l st m hd).2.1 p = some (some v)) := by
  intro l
  induction l with
  | nil =>
      intro st m hd _
      simp [runPids]
  | cons pid rest ih =>
      intro st m hd hnd
      have hpid : pid ∉ rest := (List.nodup_cons.mp hnd).1
      have hrest : rest.Nodup := (List.nodup_cons.mp hnd).2
      have hstep : runPids cores now obs (pid :: rest) st m hd =
          runPids cores now obs rest (samplePid cores now (obs pid) st pid).1
            (m.insert pid (samplePid cores now (obs pid) st pid).2)
            (hd || (samplePid cores now (obs pid) st pid).2.isSome) := rfl
      rw [hstep, ih _ _ _ hrest]
      have hMpid : (runPids cores now obs rest (samplePid cores now (obs pid) st pid).1
          (m.insert pid (samplePid cores now (obs pid) st pid).2)
          (hd || (samplePid cores now (obs pid) st pid).2.isSome)).2.1 pid =
          some (samplePid cores now (obs pid) st pid).2 := by
        rw [runPids_not_mem cores now obs rest _ _ _ pid hpid, PMap.insert_self]
      constructor
      · rintro (hor | ⟨p, hp, v, hv⟩)
        · rw [Bool.or_eq_true] at hor
          rcases hor with h1 | h1
          · exact Or.inl h1
          · obtain ⟨v, hv⟩ := Option.isSome_iff_exists.mp h1
            refine Or.inr ⟨pid, List.mem_cons_self _ _, v, ?_⟩
            rw [hMpid, hv]
        · exact Or.inr ⟨p, List.mem_cons_of_mem _ hp, v, hv⟩
      · rintro (h1 | ⟨p, hp, v, hv⟩)
        · refine Or.inl ?_
          rw [Bool.or_eq_true]
          exact Or.inl h1
        · rcases List.mem_cons.mp hp with rfl | hp2
          · refine Or.inl ?_
            rw [Bool.or_eq_true]
            refine Or.inr ?_
            rw [hMpid] at hv
            have hr : (samplePid cores now (obs p) st p).2 = some v :=
              Option.some_injective _ hv
            exact Option.isSome_iff_exists.mpr ⟨v, hr⟩
          · exact Or.inr ⟨p, hp2, v, hv⟩

/-- C4: an enabled tick writes exactly one Metric Event precisely when at
least one target in the snapshot produced a non-null sample (in
particular nothing is written when the target set is empty or every
sample is null), and the emitted event carries the tick's timestamp and
exactly the tick's metrics map. -/
theorem tick_emits_iff_nonnull (cores : ℚ) (cfg : Config) (tob : TickObs)
    (st : SamplerState) (hrun : cfg.running = true) (hnd : cfg.pids.Nodup) :
    ((collect_metrics_tick cores cfg tob st).2.isSome = true ↔
      ∃ p ∈ cfg.pids, ∃ v : Sample,
        (tickRun cores cfg tob st).2.1 p = some (some v)) ∧
    (∀ ev : MetricEvent, (collect_metrics_tick cores cfg tob st).2 = some ev →
      ev.metrics = (tickRun cores cfg tob st).2.1 ∧ ev.timestamp = tob.timestamp) := by
  have hhd : ((tickRun cores cfg tob st).2.2 = true ↔
      false = true ∨ ∃ p ∈ cfg.pids, ∃ v : Sample,
        (tickRun cores cfg tob st).2.1 p = some (some v)) :=
    runPids_has_data cores tob.now tob.procs cfg.pids (pruneState cfg.pids st)
      PMap.empty false hnd
  have hhd2 : ((tickRun cores cfg tob st).2.2 = true ↔
      ∃ p ∈ cfg.pids, ∃ v : Sample,
        (tickRun cores cfg tob st).2.1 p = some (some v)) := by
    rw [hhd]
    simp
  constructor
  · rw [← hhd2]
    by_cases h : (tickRun cores cfg tob st).2.2 = true
    · simp [collect_metrics_tick, hrun, h]
    · simp [collect_metrics_tick, hrun, h]
  · intro ev hev
    by_cases h : (tickRun cores cfg tob st).2.2 = true
    · simp only [collect_metrics_tick, hrun, if_true, h] at hev
      cases hev
      exact ⟨rfl, rfl⟩
    · simp [collect_metrics_tick, hrun, h] at hev

theorem tick_emits_iff_nonnull_witness :
    ((collect_metrics_tick 4 ⟨true, [5], 1⟩ ⟨10, 1000, fun _ =>
        ⟨Except.ok 7, Except.ok ⟨2, 1⟩, Except.ok ⟨1024, none⟩⟩⟩
        ⟨PMap.empty, PMap.empty⟩).2.isSome = true ↔
      ∃ p ∈ ([5] : List Nat), ∃ v : Sample,
        (tickRun 4 ⟨true, [5], 1⟩ ⟨10, 1000, fun _ =>
            ⟨Except.ok 7, Except.ok ⟨2, 1⟩, Except.ok ⟨1024, none⟩⟩⟩
          ⟨PMap.empty, PMap.empty⟩).2.1 p = some (some v)) ∧
    (∀ ev : MetricEvent,
      (collect_metrics_tick 4 ⟨true, [5], 1⟩ ⟨10, 1000, fun _ =>
          ⟨Except.ok 7, Except.ok ⟨2, 1⟩, Except.ok ⟨1024, none⟩⟩⟩
        ⟨PMap.empty, PMap.empty⟩).2 = some ev →
      ev.metrics = (tickRun 4 ⟨true, [5], 1⟩ ⟨10, 1000, fun _ =>
          ⟨Except.ok 7, Except.ok ⟨2, 1⟩, Except.ok ⟨1024, none⟩⟩⟩
        ⟨PMap.empty, PMap.empty⟩).2.1 ∧ ev.timestamp = 1000) :=
  tick_emits_iff_nonnull 4 ⟨true, [5], 1⟩ ⟨10, 1000, fun _ =>
      ⟨Except.ok 7, Except.ok ⟨2, 1⟩, Except.ok ⟨1024, none⟩⟩⟩
    ⟨PMap.empty, PMap.empty⟩ rfl (List.nodup_singleton 5)

/-- C10: every Process Record in a `scan_chrome` process-list response has
its cpu field equal to exactly `0.0`. -/
theorem scan_cpu_zero (procs : List OsProc) (r : ChromeProc)
    (hr : r ∈ scan_chrome_processes procs) : r.cpu = 0 := by
  rw [scan_chrome_processes, List.mem_filterMap] at hr
  obtain ⟨p, _, hp⟩ := hr
  by_cases h1 : p.accessible = true
  · simp only [h1, if_true] at hp
    by_cases h2 : target_names.any (fun t => strContains (pyLower p.name) t) = true
    · simp only [h2, if_true] at hp
      cases hp
      rfl
    · simp [h2] at hp
  · simp [h1] at hp

theorem scan_cpu_zero_witness :
    ({ pid := 1, name := "chrome", proc_type := "GPU", memory := 2048,
        cpu := 0 } : ChromeProc).cpu = 0 :=
  scan_cpu_zero [⟨1, "chrome", some ["--type=gpu-process"], ⟨2048, none⟩, true⟩]
    ⟨1, "chrome", "GPU", 2048, 0⟩ (by decide)

theorem pySplitEq_flag (v : String) (hv : ∀ c ∈ v.data, c ≠ ('=' : Char)) :
    pySplitEq (tyFlag ++ v) = [("--type" : String), v] := by
  have hdata : (tyFlag ++ v).data = ("--type" : String).data ++ ('=' : Char) :: v.data := by
    cases v with
    | mk l => rfl
  unfold pySplitEq
  rw [hdata]
  have h1 : List.splitOn ('=' : Char) (("--type" : String).data ++ ('=' : Char) :: v.data) =
      ("--type" : String).data :: v.data.splitOn ('=' : Char) := by
    apply List.splitOnP_first
    · decide
    · rfl
  rw [h1]
  have h2 : v.data.splitOn ('=' : Char) = [v.data] := by
    apply List.splitOnP_eq_single
    intro x hx
    simp only [beq_iff_eq]
    exact fun hh => hv x hx hh
  rw [h2]
  rfl

theorem strContains_mono {a b : String} (hab : a.data <:+: b.data)
    {s : String} (hb : strContains s b = true) : strContains s a = true :=
  decide_eq_true (hab.trans (of_decide_eq_true hb))

/-- C7: the scanner's role classifier obeys this precedence on the joined
command line: the renderer flag wins first (split into Extension when the
extension-process flag is also present, else Renderer), then the GPU flag
gives GPU, then the utility flag gives Utility, then the crash-handler
flag gives Crashpad, then the first other `--type=value` argument gives
the capitalized value as the role (and Browser when no argument carries
the flag), and a command line with no `--type=` flag at all gives
Browser. -/
theorem classify_precedence (cmdline : List String) :
    (strContains (cmd_str_of cmdline) tyRenderer = true →
      classify_proc_type cmdline =
        (if strContains (cmd_str_of cmdline) tyExtension then "Extension"
         else "Renderer")) ∧
    (strContains (cmd_str_of cmdline) tyRenderer = false →
      strContains (cmd_str_of cmdline) tyGpu = true →
      classify_proc_type cmdline = "GPU") ∧
    (strContains (cmd_str_of cmdline) tyRenderer = false →
      strContains (cmd_str_of cmdline) tyGpu = false →
      strContains (cmd_str_of cmdline) tyUtility = true →
      classify_proc_type cmdline = "Utility") ∧
    (strContains (cmd_str_of cmdline) tyRenderer = false →
      strContains (cmd_str_of cmdline) tyGpu = false →
      strContains (cmd_str_of cmdline) tyUtility = false →
      strContains (cmd_str_of cmdline) tyCrashpad = true →
      classify_proc_type cmdline = "Crashpad") ∧
    (strContains (cmd_str_of cmdline) tyRenderer = false →
      strContains (cmd_str_of cmdline) tyGpu = false →
      strContains (cmd_str_of cmdline) tyUtility = false →
      strContains (cmd_str_of cmdline) tyCrashpad = false →
      strContains (cmd_str_of cmdline) tyFlag = true →
      ∀ v : String, (∀ c ∈ v.data, c ≠ ('=' : Char)) →
        cmdline.find? (fun arg => pyStartsWith arg tyFlag) = some (tyFlag ++ v) →
        classify_proc_type cmdline = pyCapitalize v) ∧
    (strContains (cmd_str_of cmdline) tyRenderer = false →
      strContains (cmd_str_of cmdline) tyGpu = false →
      strContains (cmd_str_of cmdline) tyUtility = false →
      strContains (cmd_str_of cmdline) tyCrashpad = false →
      strContains (cmd_str_of cmdline) tyFlag = true →
      cmdline.find? (fun arg => pyStartsWith arg tyFlag) = none →
      classify_proc_type cmdline = "Browser") ∧
    (strContains (cmd_str_of cmdline) tyFlag = false →
      classify_proc_type cmdline = "Browser") := by
  refine ⟨?_, ?_, ?_, ?_, ?_, ?_, ?_⟩
  · intro hr
    simp [classify_proc_type, hr]
  · intro hr hg
    simp [classify_proc_type, hr, hg]
  · intro hr hg hu
    simp [classify_proc_type, hr, hg, hu]
  · intro hr hg hu hc
    simp [classify_proc_type, hr, hg, hu, hc]
  · intro hr hg hu hc hf v hv hfind
    simp only [classify_proc_type, hr, hg, hu, hc, hf, Bool.false_eq_true, if_false,
      if_true, hfind]
    rw [pySplitEq_flag v hv]
    rfl
  · intro hr hg hu hc hf hfind
    simp [classify_proc_type, hr, hg, hu, hc, hf, hfind]
  · intro hf
    have hr : strContains (cmd_str_of cmdline) tyRenderer = false := by
      by_contra h
      rw [Bool.not_eq_false] at h
      rw [strContains_mono (by decide) h] at hf
      cases hf
    have hg : strContains (cmd_str_of cmdline) tyGpu = false := by
      by_contra h
      rw [Bool.not_eq_false] at h
      rw [strContains_mono (by decide) h] at hf
      cases hf
    have hu : strContains (cmd_str_of cmdline) tyUtility = false := by
      by_contra h
      rw [Bool.not_eq_false] at h
      rw [strContains_mono (by decide) h] at hf
      cases hf
    have hc : strContains (cmd_str_of cmdline) tyCrashpad = false := by
      by_contra h
      rw [Bool.not_eq_false] at h
      rw [strContains_mono (by decide) h] at hf
      cases hf
    simp [classify_proc_type, hr, hg, hu, hc, hf]

theorem classify_precedence_witness :
    classify_proc_type [("--type=broker" : String)] = pyCapitalize ("broker") :=
  (classify_precedence [("--type=broker" : String)]).2.2.2.2.1 (by decide) (by decide)
    (by decide) (by decide) (by decide) ("broker") (by decide) (by decide)

end PerfSight
